import Mathlib

/-!
Verification of the DNF logging subsystem (src/dnf/logging.py) against its
natural-language specification.  The Python module is shallowly embedded:
pure mapping functions become Lean functions on Int/Nat, the rotating file
handler's emit loop becomes a function over a trace of per-iteration
environment outcomes, and the (Logging) setup object becomes an explicit
state machine.  Python asserts and exceptions are modelled with Option and
Except.
-/

namespace DnfLogging

/-! ### Severity level constants (logging.py lines 37-45).
SUPERCRITICAL = 100, CRITICAL = logging.CRITICAL = 50,
ERROR = logging.ERROR = 40, WARNING = logging.WARNING = 30,
INFO = logging.INFO = 20, DEBUG = logging.DEBUG = 10,
DDEBUG = 8, SUBDEBUG = 6, TRACE = 4. -/

def SUPERCRITICAL : Nat := 100

def CRITICAL : Nat := 50

def ERROR : Nat := 40

def WARNING : Nat := 30

def INFO : Nat := 20

def DEBUG : Nat := 10

def DDEBUG : Nat := 8

def SUBDEBUG : Nat := 6

def TRACE : Nat := 4

/-! ### SeverityMap (logging.py lines 65-90).
The Python dicts VERBOSE_VAL_MAPPING / ERR_VAL_MAPPING are embedded as
partial lookup functions, dict.get(k, default) as Option.getD, and the
assert 0 <= cfg_errval <= 10 as an Option: none models the
AssertionError (the precondition guard firing, no level returned). -/

def VERBOSE_VAL_MAPPING (v : Int) : Option Nat :=
  if v = 0 then some SUPERCRITICAL
  else if v = 1 then some INFO
  else if v = 2 then some INFO
  else if v = 3 then some DEBUG
  else if v = 4 then some DEBUG
  else if v = 5 then some DEBUG
  else if v = 6 then some DEBUG
  else none

def cfg_verbose_val2level (cfg_errval : Int) : Option Nat :=
  if 0 ≤ cfg_errval ∧ cfg_errval ≤ 10 then
    some ((VERBOSE_VAL_MAPPING cfg_errval).getD DDEBUG)
  else none

def ERR_VAL_MAPPING (v : Int) : Option Nat :=
  if v = 0 then some SUPERCRITICAL
  else if v = 1 then some CRITICAL
  else if v = 2 then some ERROR
  else none

def cfg_err_val2level (cfg_errval : Int) : Option Nat :=
  if 0 ≤ cfg_errval ∧ cfg_errval ≤ 10 then
    some ((ERR_VAL_MAPPING cfg_errval).getD WARNING)
  else none

/-- Spec-side definition (for the refinement comparison in claim C2 only):
the named severity tiers of the data model, most verbose (lowest rank)
first, as listed in spec section 3. -/
def namedTiers : List Nat :=
  [TRACE, SUBDEBUG, DDEBUG, DEBUG, INFO, WARNING, ERROR, CRITICAL]

/-- Spec-side definition (for claim C2 only): the most verbose (lowest
rank) named tier strictly below DEBUG, which the spec says is the value of
the verbosity map on 7-10. -/
def spec_mostVerboseNamedTierBelowDEBUG : Nat :=
  (namedTiers.filter (fun t => t < DEBUG)).foldr min SUPERCRITICAL

/-! ### MultiprocessRotatingFileHandler.emit (logging.py lines 99-111).
The while-True loop is embedded as a function over a trace of
per-iteration environment outcomes.  In one iteration the code may
(a) hit a ProcessLockError/ThreadLockError while acquiring the rotation
lock: it sleeps 0.01 s and retries; (b) hit any other exception during
rollover or the write: it calls handleError(record) and returns, dropping
the record; (c) complete: it rotates when shouldRollover said so, writes
the record via FileHandler.emit and returns. -/

/-- Environment outcome of one iteration of the emit loop. -/
inductive IterEnv where
  /-- The rotation lock is held elsewhere: acquiring it raises
  ProcessLockError or ThreadLockError. -/
  | lockBusy : IterEnv
  /-- Some exception other than the two lock errors occurs during the
  rollover or the write attempt. -/
  | failOther : IterEnv
  /-- The iteration completes; the argument is what shouldRollover
  returned, i.e. whether a rotation was required and performed. -/
  | ok : Bool → IterEnv
deriving DecidableEq

/-- Result of the emit loop. -/
inductive EmitResult where
  /-- FileHandler.emit wrote the record and emit returned; the argument
  records whether a rollover was performed in the final iteration. -/
  | written : Bool → EmitResult
  /-- handleError was called on the record, the record was dropped, and
  emit returned normally (no exception propagates). -/
  | errorHandled : EmitResult
  /-- The environment trace is exhausted with emit still looping: the
  record is still pending, not dropped. -/
  | pending : EmitResult
deriving DecidableEq

/-- The fixed backoff of time.sleep(0.01) between retries, in
milliseconds. -/
def sleepMilliseconds : Nat := 10

/-- The emit loop over a trace of iteration environments.  Returns the
result together with the number of backoff sleeps performed. -/
def emitRun : List IterEnv → EmitResult × Nat
  | [] => (EmitResult.pending, 0)
  | IterEnv.lockBusy :: rest =>
      let r := emitRun rest
      (r.1, r.2 + 1)
  | IterEnv.failOther :: _ => (EmitResult.errorHandled, 0)
  | IterEnv.ok needRotate :: _ => (EmitResult.written needRotate, 0)

lemma emitRun_replicate_lockBusy_append (n : Nat) (l : List IterEnv) :
    emitRun (List.replicate n IterEnv.lockBusy ++ l) =
      ((emitRun l).1, (emitRun l).2 + n) := by
  induction n with
  | zero => simp
  | succ k ih =>
      simp [List.replicate_succ, emitRun, ih, Nat.add_assoc]

lemma emitRun_no_failOther_ne_errorHandled (t : List IterEnv)
    (h : ∀ e ∈ t, e ≠ IterEnv.failOther) :
    (emitRun t).1 ≠ EmitResult.errorHandled := by
  induction t with
  | nil => simp [emitRun]
  | cons e rest ih =>
      cases e with
      | lockBusy =>
          simp only [emitRun]
          exact ih (fun x hx => h x (List.mem_cons_of_mem _ hx))
      | failOther => exact absurd rfl (h _ (List.mem_cons_self _ _))
      | ok b => simp [emitRun]

/-! ### Record routing (logging.py lines 56-63 and 142-159).
_MaxLevelFilter.filter returns 0 (reject) when record.levelno >=
max_level and 1 (pass) otherwise.  A Python logger forwards a record to
its handlers when the record's level is at least the logger's level, and
a handler emits it when the record's level is at least the handler's
level and every attached filter passes.  _presetup attaches to the dnf
logger (level TRACE) a stdout StreamHandler at level INFO carrying
_MaxLevelFilter(WARNING) and a stderr StreamHandler at level WARNING with
no filter. -/

/-- _MaxLevelFilter(max_level).filter(record) for a record at level
levelno (returns the 0/1 of the source). -/
def maxLevelFilter (max_level levelno : Nat) : Nat :=
  if levelno ≥ max_level then 0 else 1

/-- A console handler: its level plus the bound of its _MaxLevelFilter,
when one is attached. -/
structure StreamHandler where
  level : Nat
  maxFilterBound : Option Nat
deriving DecidableEq

/-- Whether every filter attached to the handler passes a record. -/
def handlerFiltersPass (h : StreamHandler) (levelno : Nat) : Bool :=
  match h.maxFilterBound with
  | some m => maxLevelFilter m levelno = 1
  | none => true

/-- Whether the handler itself emits a record it is offered. -/
def handlerDelivers (h : StreamHandler) (levelno : Nat) : Bool :=
  h.level ≤ levelno && handlerFiltersPass h levelno

/-- Whether a logger at the given threshold forwards a record to its
handlers. -/
def loggerForwards (threshold levelno : Nat) : Bool :=
  threshold ≤ levelno

/-- End-to-end: record delivered to a sink of a stream. -/
def deliveredToSink (threshold : Nat) (h : StreamHandler) (levelno : Nat) :
    Bool :=
  loggerForwards threshold levelno && handlerDelivers h levelno

/-- The stdout handler as configured by Logging._presetup. -/
def stdout_handler : StreamHandler := ⟨INFO, some WARNING⟩

/-- The stderr handler as configured by Logging._presetup. -/
def stderr_handler : StreamHandler := ⟨WARNING, none⟩

/-- The dnf logger threshold set by Logging._presetup. -/
def presetupLoggerLevel : Nat := TRACE

/-! ### The Logging object (logging.py lines 47-54 and 132-226).
only_once replaces the bound method by a noop after its first call on the
instance: embedded as one done-flag per decorated method.  The observable
process-wide configuration touched by the methods is gathered in a state
record; file names under the log directory come from dnf.const, which is
outside this repository, so they are kept as abstract distinct constants
(their values decide nothing in the claims). -/

/-- A sink attached to a logger. -/
inductive Sink where
  | stdoutSink : Sink
  | stderrSink : Sink
  | fileSink : String → Sink
deriving DecidableEq

/-- Modelled from the spec: dnf.const.LOG, the main log file name
("main log" in spec section 6); dnf.const is not part of this
repository. -/
def constLOG : String := "main.log"

/-- Modelled from the spec: dnf.const.LOG_RPM, the transfer-sub-library
log file name; dnf.const is not part of this repository. -/
def constLOG_RPM : String := "rpm.log"

/-- Modelled from the spec: dnf.const.LOG_LIBREPO, the native-bridge log
file name; dnf.const is not part of this repository. -/
def constLOG_LIBREPO : String := "librepo.log"

/-- Arguments of Logging._setup. -/
structure SetupArgs where
  verbose_level : Nat
  error_level : Nat
  logdir : String
  log_size : Nat
  log_rotate : Nat
deriving DecidableEq

/-- Observable logging configuration plus the only_once flags. -/
structure LoggingState where
  newLevelsDone : Bool
  presetupDone : Bool
  setupDnfDone : Bool
  setupRpmDone : Bool
  setupLibrepoDone : Bool
  setupDone : Bool
  stdoutLevel : Option Nat
  stderrLevel : Option Nat
  dnfLoggerLevel : Nat
  rpmLoggerLevel : Nat
  rpmPropagate : Bool
  dnfHandlers : List Sink
  rpmHandlers : List Sink
  warningsHandlers : List Sink
  librepoHandlers : List (String × Bool)
  addedLevelNames : List (Nat × String)
  captureWarnings : Bool
  raiseExceptions : Bool
deriving DecidableEq

/-- The state of a fresh process: Logging() constructed, no setup method
run yet; Python logger levels default to NOTSET = 0, propagate and
logging.raiseExceptions default to True. -/
def initLoggingState : LoggingState :=
  { newLevelsDone := false
    presetupDone := false
    setupDnfDone := false
    setupRpmDone := false
    setupLibrepoDone := false
    setupDone := false
    stdoutLevel := none
    stderrLevel := none
    dnfLoggerLevel := 0
    rpmLoggerLevel := 0
    rpmPropagate := true
    dnfHandlers := []
    rpmHandlers := []
    warningsHandlers := []
    librepoHandlers := []
    addedLevelNames := []
    captureWarnings := false
    raiseExceptions := true }

/-- Logging._new_logging_levels (only_once). -/
def new_logging_levels (s : LoggingState) : LoggingState :=
  if s.newLevelsDone then s
  else
    { s with
      newLevelsDone := true
      addedLevelNames := s.addedLevelNames ++
        [(DDEBUG, "DDEBUG"), (SUBDEBUG, "SUBDEBUG"), (TRACE, "TRACE")] }

/-- Logging._presetup (only_once): registers the custom level names, sets
the dnf logger to TRACE and attaches the stdout (level INFO, max-filter
WARNING) and stderr (level WARNING) handlers. -/
def presetup (s : LoggingState) : LoggingState :=
  if s.presetupDone then s
  else
    let s1 := new_logging_levels s
    { s1 with
      presetupDone := true
      dnfLoggerLevel := TRACE
      stdoutLevel := some INFO
      stderrLevel := some WARNING
      dnfHandlers := s1.dnfHandlers ++ [Sink.stdoutSink, Sink.stderrSink] }

/-- Logging._setup_dnf_logger (only_once) with verbosity = None: sets the
dnf logger to TRACE, attaches the main rotating file handler, enables
warnings capture into stderr and the file. -/
def setup_dnf_logger (s : LoggingState) (logdir : String) : LoggingState :=
  if s.setupDnfDone then s
  else
    { s with
      setupDnfDone := true
      dnfLoggerLevel := TRACE
      dnfHandlers := s.dnfHandlers ++ [Sink.fileSink (logdir ++ "/" ++ constLOG)]
      captureWarnings := true
      warningsHandlers := s.warningsHandlers ++
        [Sink.stderrSink, Sink.fileSink (logdir ++ "/" ++ constLOG)] }

/-- Logging._setup_librepo_logger (only_once): registers the librepo log
file with the debug flag verbosity <= DEBUG. -/
def setup_librepo_logger (s : LoggingState) (logdir : String)
    (verbosity : Nat) : LoggingState :=
  if s.setupLibrepoDone then s
  else
    { s with
      setupLibrepoDone := true
      librepoHandlers := s.librepoHandlers ++
        [(logdir ++ "/" ++ constLOG_LIBREPO, decide (verbosity ≤ DEBUG))] }

/-- Logging._setup_rpm_logger (only_once) with verbosity = None: the
dnf.rpm logger stops propagating, gets the rpm rotating file handler and
level SUBDEBUG. -/
def setup_rpm_logger (s : LoggingState) (logdir : String) : LoggingState :=
  if s.setupRpmDone then s
  else
    { s with
      setupRpmDone := true
      rpmPropagate := false
      rpmHandlers := s.rpmHandlers ++ [Sink.fileSink (logdir ++ "/" ++ constLOG_RPM)]
      rpmLoggerLevel := SUBDEBUG }

/-- Logging._setup (only_once): presetup, temporarily raise both console
handlers to SUPERCRITICAL, set up the dnf / librepo / rpm loggers, attach
the console handlers to the rpm logger, restore the console handlers to
the caller-supplied levels and disable logging.raiseExceptions. -/
def setup (s : LoggingState) (a : SetupArgs) : LoggingState :=
  if s.setupDone then s
  else
    let s1 := presetup s
    let s2 := { s1 with
      stdoutLevel := some SUPERCRITICAL
      stderrLevel := some SUPERCRITICAL }
    let s3 := setup_dnf_logger s2 a.logdir
    let s4 := setup_librepo_logger s3 a.logdir a.verbose_level
    let s5 := setup_rpm_logger s4 a.logdir
    let s6 := { s5 with
      rpmHandlers := s5.rpmHandlers ++ [Sink.stdoutSink, Sink.stderrSink] }
    { s6 with
      stdoutLevel := some a.verbose_level
      stderrLevel := some a.error_level
      raiseExceptions := false
      setupDone := true }

lemma setup_setupDone (s : LoggingState) (a : SetupArgs)
    (h : s.setupDone = true) : setup s a = s := by
  simp [setup, h]

lemma setupDone_of_setup (s : LoggingState) (a : SetupArgs) :
    (setup s a).setupDone = true := by
  by_cases h : s.setupDone = true
  · rw [setup_setupDone s a h]; exact h
  · simp [setup, h]

lemma presetup_presetupDone (s : LoggingState)
    (h : s.presetupDone = true) : presetup s = s := by
  simp [presetup, h]

lemma presetupDone_of_presetup (s : LoggingState) :
    (presetup s).presetupDone = true := by
  by_cases h : s.presetupDone = true
  · rw [presetup_presetupDone s h]; exact h
  · simp [presetup, h]

/-! ### The libdnf bridge (logging.py lines 240-269).
libdnf.utils.Logger's severity enumeration becomes an inductive type, the
dict LIBDNF_TO_DNF_LOGLEVEL_MAPPING a total function on it.
LibdnfLoggerCB.write(source, *args) binds (level, message) from a 2-tuple
payload and (time, pid, level, message) from a 4-tuple payload, then calls
self.logger.log(mapping[level], message); the logger is
logging.getLogger("dnf").  A payload of any other arity leaves level and
message unbound, so evaluating the log call raises UnboundLocalError; a
2- or 4-tuple whose level slot is not a key of the dict raises KeyError.
Both are embedded with Except. -/

/-- The libdnf severity enumeration (libdnf.utils.Logger.Level_*). -/
inductive LibdnfLevel where
  | Level_CRITICAL : LibdnfLevel
  | Level_ERROR : LibdnfLevel
  | Level_WARNING : LibdnfLevel
  | Level_NOTICE : LibdnfLevel
  | Level_INFO : LibdnfLevel
  | Level_DEBUG : LibdnfLevel
  | Level_TRACE : LibdnfLevel
deriving DecidableEq

/-- The dict LIBDNF_TO_DNF_LOGLEVEL_MAPPING. -/
def LIBDNF_TO_DNF_LOGLEVEL_MAPPING : LibdnfLevel → Nat
  | LibdnfLevel.Level_CRITICAL => CRITICAL
  | LibdnfLevel.Level_ERROR => ERROR
  | LibdnfLevel.Level_WARNING => WARNING
  | LibdnfLevel.Level_NOTICE => INFO
  | LibdnfLevel.Level_INFO => INFO
  | LibdnfLevel.Level_DEBUG => DEBUG
  | LibdnfLevel.Level_TRACE => TRACE

/-- A Python value appearing in the variadic payload of write. -/
inductive PyArg where
  /-- A libdnf severity value. -/
  | lvl : LibdnfLevel → PyArg
  /-- A message string. -/
  | msg : String → PyArg
  /-- Any other object (timestamps, pids, ...). -/
  | num : Int → PyArg
deriving DecidableEq

/-- The exception write can raise. -/
inductive WriteErr where
  /-- len(args) is neither 2 nor 4: level and message are never bound and
  evaluating them raises UnboundLocalError. -/
  | unboundLocalError : WriteErr
  /-- The level slot is not a key of LIBDNF_TO_DNF_LOGLEVEL_MAPPING. -/
  | keyError : WriteErr
deriving DecidableEq

/-- The name of the logger LibdnfLoggerCB forwards to
(logging.getLogger("dnf") in the constructor). -/
def libdnfCBLoggerName : String := "dnf"

/-- LibdnfLoggerCB.write: on success, returns the (mapped level, message)
pair handed to self.logger.log. -/
def LibdnfLoggerCB_write (args : List PyArg) : Except WriteErr (Nat × PyArg) :=
  match args with
  | [l, m] =>
      match l with
      | PyArg.lvl lv => Except.ok (LIBDNF_TO_DNF_LOGLEVEL_MAPPING lv, m)
      | _ => Except.error WriteErr.keyError
  | [_t, _p, l, m] =>
      match l with
      | PyArg.lvl lv => Except.ok (LIBDNF_TO_DNF_LOGLEVEL_MAPPING lv, m)
      | _ => Except.error WriteErr.keyError
  | _ => Except.error WriteErr.unboundLocalError

/-! ## Claim theorems -/

/-- Claim C1: whenever a rotation attempt inside emit fails with a
cross-process or cross-thread lock-contention error, the sink sleeps a
fixed 10 ms backoff and retries the same record indefinitely: after any
number n of contended iterations a completing iteration still writes the
record (performing the required rotation exactly when shouldRollover
demanded it), a trace of nothing but contention leaves the record pending
(still retrying, not dropped), and no contention-only trace can ever end
in the record being dropped through handleError. -/
theorem claim_C1_lock_contention_retry (n : Nat) (b : Bool)
    (t : List IterEnv) (h : ∀ e ∈ t, e ≠ IterEnv.failOther) :
    sleepMilliseconds = 10 ∧
    emitRun (List.replicate n IterEnv.lockBusy ++ [IterEnv.ok b]) =
      (EmitResult.written b, n) ∧
    emitRun (List.replicate n IterEnv.lockBusy) = (EmitResult.pending, n) ∧
    (emitRun t).1 ≠ EmitResult.errorHandled := by
  refine ⟨rfl, ?_, ?_, emitRun_no_failOther_ne_errorHandled t h⟩
  · rw [emitRun_replicate_lockBusy_append]
    simp [emitRun]
  · simpa [emitRun] using emitRun_replicate_lockBusy_append n []

/-- Witness for C1 at n = 2, b = true and a concrete contention-only
prefix trace. -/
theorem claim_C1_witness :
    sleepMilliseconds = 10 ∧
    emitRun (List.replicate 2 IterEnv.lockBusy ++ [IterEnv.ok true]) =
      (EmitResult.written true, 2) ∧
    emitRun (List.replicate 2 IterEnv.lockBusy) = (EmitResult.pending, 2) ∧
    (emitRun [IterEnv.lockBusy, IterEnv.ok false]).1 ≠
      EmitResult.errorHandled :=
  claim_C1_lock_contention_retry 2 true [IterEnv.lockBusy, IterEnv.ok false]
    (by decide)

/-- Claim C2, counterexample: the code maps dial value 7 to DDEBUG
(rank 8), but the tier the claim describes - the most verbose named tier
below DEBUG - is TRACE (rank 4), so the returned level is not the
claimed one. -/
theorem claim_C2_counterexample :
    cfg_verbose_val2level 7 = some DDEBUG ∧
    spec_mostVerboseNamedTierBelowDEBUG = TRACE ∧
    DDEBUG ≠ spec_mostVerboseNamedTierBelowDEBUG ∧
    cfg_verbose_val2level 7 ≠ some spec_mostVerboseNamedTierBelowDEBUG := by
  decide

/-- Claim C2 as amended: for every dial value v with 0 <= v <= 10 the
verbosity map returns SUPERCRITICAL (the suppress-all sentinel) for 0,
INFO for 1-2, DEBUG for 3-6 and DDEBUG for 7-10, DDEBUG being the least
verbose named tier strictly below DEBUG (the tier adjacent to DEBUG), not
the most verbose one. -/
theorem claim_C2_amended (v : Int) (h0 : 0 ≤ v) (h10 : v ≤ 10) :
    cfg_verbose_val2level v =
      some (if v = 0 then SUPERCRITICAL
            else if v ≤ 2 then INFO
            else if v ≤ 6 then DEBUG
            else DDEBUG) := by
  interval_cases v <;> decide

/-- Witness for the amended C2 at v = 9. -/
theorem claim_C2_amended_witness :
    cfg_verbose_val2level 9 =
      some (if (9 : Int) = 0 then SUPERCRITICAL
            else if (9 : Int) ≤ 2 then INFO
            else if (9 : Int) ≤ 6 then DEBUG
            else DDEBUG) :=
  claim_C2_amended 9 (by decide) (by decide)

/-- Claim C3: for every dial value e with 0 <= e <= 10 the error map
returns SUPERCRITICAL (the suppress-all sentinel) for 0, CRITICAL for 1,
ERROR for 2 and WARNING for every e in 3..10. -/
theorem claim_C3_err_mapping (e : Int) (h0 : 0 ≤ e) (h10 : e ≤ 10) :
    cfg_err_val2level e =
      some (if e = 0 then SUPERCRITICAL
            else if e = 1 then CRITICAL
            else if e = 2 then ERROR
            else WARNING) := by
  interval_cases e <;> decide

/-- Witness for C3 at e = 5. -/
theorem claim_C3_witness :
    cfg_err_val2level 5 =
      some (if (5 : Int) = 0 then SUPERCRITICAL
            else if (5 : Int) = 1 then CRITICAL
            else if (5 : Int) = 2 then ERROR
            else WARNING) :=
  claim_C3_err_mapping 5 (by decide) (by decide)

/-- Claim C4: a second call of setup (and of presetup) in the same
process, with any arguments, is a no-op: the state after the two calls
equals the state after the single first call. -/
theorem claim_C4_setup_idempotent (s : LoggingState) (a1 a2 : SetupArgs) :
    setup (setup s a1) a2 = setup s a1 ∧
    presetup (presetup s) = presetup s :=
  ⟨setup_setupDone (setup s a1) a2 (setupDone_of_setup s a1),
   presetup_presetupDone (presetup s) (presetupDone_of_presetup s)⟩

/-- Claim C5: for every threshold and every record rank, a stream
forwards a record iff its rank is at least the stream threshold (equality
delivers); for every bound and every rank, the exclusive max-level filter
passes a record iff its rank is strictly below the bound; under the
presetup configuration an INFO record is delivered to the stdout sink
(strictly below the exclusive WARNING bound), a WARNING record never
reaches the stdout sink, and every record at WARNING or above reaches
the stderr sink. -/
theorem claim_C5_threshold_filtering (threshold levelno bound : Nat) :
    (loggerForwards threshold levelno = true ↔ threshold ≤ levelno) ∧
    (maxLevelFilter bound levelno = 1 ↔ levelno < bound) ∧
    deliveredToSink presetupLoggerLevel stdout_handler INFO = true ∧
    deliveredToSink presetupLoggerLevel stdout_handler WARNING = false ∧
    (WARNING ≤ levelno →
      deliveredToSink presetupLoggerLevel stderr_handler levelno = true) := by
  refine ⟨by simp [loggerForwards], ?_, by decide, by decide, ?_⟩
  · simp only [maxLevelFilter]
    split <;> omega
  · intro h
    have h30 : 30 ≤ levelno := h
    simp only [deliveredToSink, loggerForwards, handlerDelivers,
      handlerFiltersPass, stderr_handler, presetupLoggerLevel, TRACE,
      WARNING, Bool.and_eq_true, decide_eq_true_eq]
    refine ⟨by omega, by omega, trivial⟩

/-- Witness for C5: the iffs at threshold = 20, levelno = 20, bound = 30,
and stderr delivery of a rank-30 record with the hypothesis WARNING <= 30
discharged. -/
theorem claim_C5_witness :
    (loggerForwards 20 20 = true ↔ 20 ≤ 20) ∧
    (maxLevelFilter 30 20 = 1 ↔ 20 < 30) ∧
    deliveredToSink presetupLoggerLevel stdout_handler INFO = true ∧
    deliveredToSink presetupLoggerLevel stdout_handler WARNING = false ∧
    deliveredToSink presetupLoggerLevel stderr_handler 30 = true :=
  have h1 := claim_C5_threshold_filtering 20 20 30
  have h2 := claim_C5_threshold_filtering 20 30 30
  ⟨h1.1, h1.2.1, h1.2.2.1, h1.2.2.2.1, h2.2.2.2.2 (by decide)⟩

/-- Claim C6: if an iteration of the emit loop fails with any exception
other than the two lock-contention errors - after any number n of
contended retries - the loop calls handleError, drops that single record
and returns normally (emitRun is total and yields errorHandled, never a
propagated exception). -/
theorem claim_C6_other_error_handled (n : Nat) (rest : List IterEnv) :
    emitRun (List.replicate n IterEnv.lockBusy ++ IterEnv.failOther :: rest) =
      (EmitResult.errorHandled, n) := by
  rw [emitRun_replicate_lockBusy_append]
  simp [emitRun]

/-- Claim C7: for every 2-tuple (level, message) and 4-tuple (time, pid,
level, message) payload carrying a native severity value, write forwards
the message at the level given by the fixed table critical-CRITICAL,
error-ERROR, warning-WARNING, notice-INFO, info-INFO, debug-DEBUG,
trace-TRACE, to the logger named dnf that carries the sub-library
messages. -/
theorem claim_C7_bridge_mapping (lv : LibdnfLevel) (m t p : PyArg) :
    LibdnfLoggerCB_write [PyArg.lvl lv, m] =
      Except.ok (LIBDNF_TO_DNF_LOGLEVEL_MAPPING lv, m) ∧
    LibdnfLoggerCB_write [t, p, PyArg.lvl lv, m] =
      Except.ok (LIBDNF_TO_DNF_LOGLEVEL_MAPPING lv, m) ∧
    LIBDNF_TO_DNF_LOGLEVEL_MAPPING LibdnfLevel.Level_CRITICAL = CRITICAL ∧
    LIBDNF_TO_DNF_LOGLEVEL_MAPPING LibdnfLevel.Level_ERROR = ERROR ∧
    LIBDNF_TO_DNF_LOGLEVEL_MAPPING LibdnfLevel.Level_WARNING = WARNING ∧
    LIBDNF_TO_DNF_LOGLEVEL_MAPPING LibdnfLevel.Level_NOTICE = INFO ∧
    LIBDNF_TO_DNF_LOGLEVEL_MAPPING LibdnfLevel.Level_INFO = INFO ∧
    LIBDNF_TO_DNF_LOGLEVEL_MAPPING LibdnfLevel.Level_DEBUG = DEBUG ∧
    LIBDNF_TO_DNF_LOGLEVEL_MAPPING LibdnfLevel.Level_TRACE = TRACE ∧
    libdnfCBLoggerName = "dnf" :=
  ⟨rfl, rfl, rfl, rfl, rfl, rfl, rfl, rfl, rfl, rfl⟩

/-- Claim C8: for every integer outside 0..10 both maps fail their
precondition guard (no level is returned), and for every integer inside
0..10 the guard never fires and a level is returned: the guard fires
exactly on the out-of-range inputs. -/
theorem claim_C8_precondition_guard (v : Int) :
    ((0 ≤ v ∧ v ≤ 10) ↔ (cfg_verbose_val2level v).isSome = true) ∧
    ((0 ≤ v ∧ v ≤ 10) ↔ (cfg_err_val2level v).isSome = true) := by
  by_cases h : 0 ≤ v ∧ v ≤ 10 <;>
    simp [cfg_verbose_val2level, cfg_err_val2level, h]

/-- Witness for C8 at the out-of-range input v = 11. -/
theorem claim_C8_witness :
    ((0 ≤ (11 : Int) ∧ (11 : Int) ≤ 10) ↔
      (cfg_verbose_val2level 11).isSome = true) ∧
    ((0 ≤ (11 : Int) ∧ (11 : Int) ≤ 10) ↔
      (cfg_err_val2level 11).isSome = true) :=
  claim_C8_precondition_guard 11

/-- Claim C9: after the first setup call in a process, the stdout sink's
threshold equals the caller-supplied verbosity-derived level, the stderr
sink's threshold equals the caller-supplied error-derived level (the
temporary SUPERCRITICAL raise is fully undone), and
logging.raiseExceptions is disabled. -/
theorem claim_C9_setup_postcondition (a : SetupArgs) :
    (setup initLoggingState a).stdoutLevel = some a.verbose_level ∧
    (setup initLoggingState a).stderrLevel = some a.error_level ∧
    (setup initLoggingState a).raiseExceptions = false :=
  ⟨rfl, rfl, rfl⟩

/-- Claim C10: a call of write whose variadic payload has a length other
than 2 or 4 fails with an unbound-variable error before anything is
logged: neither level nor message is ever bound. -/
theorem claim_C10_bad_arity (args : List PyArg) (h2 : args.length ≠ 2)
    (h4 : args.length ≠ 4) :
    LibdnfLoggerCB_write args = Except.error WriteErr.unboundLocalError := by
  rcases args with _ | ⟨a, _ | ⟨b, _ | ⟨c, _ | ⟨d, _ | ⟨e, rest⟩⟩⟩⟩⟩
  · rfl
  · rfl
  · exact absurd rfl h2
  · rfl
  · exact absurd rfl h4
  · rfl

/-- Witness for C10 at the empty payload. -/
theorem claim_C10_witness :
    LibdnfLoggerCB_write [] = Except.error WriteErr.unboundLocalError :=
  claim_C10_bad_arity [] (by decide) (by decide)

end DnfLogging
